import Mathlib

/-!
# Mission Control live-sync reconciliation core: a shallow embedding

This file embeds, in Lean 4, the live-sync reconciliation core of the
Mission Control dashboard: the event-stream (SSE) message handler and its
refresh, the polling fallback scheduler, the teardown paths, the
per-collection store updates, the connectivity status checks, and the
derived "blocked agent" computation.  The definitions are translated
directly from the TypeScript source (`AgentsSidebar.tsx`'s embedded
`AgentActivityDashboard` component and the workspace page component);
theorems about them settle the specification's claims.
-/

namespace MissionControl

/-! ## Data model

Entity records, with the fields the sync core reads.  Statuses are the
closed string enumerations used by the source (`AgentStatus`,
task lifecycle statuses). -/

inductive AgentStatus where
  | working
  | standby
  | offline
deriving DecidableEq, Repr

inductive TaskStatus where
  | assigned
  | in_progress
  | testing
  | review
  | done
deriving DecidableEq, Repr

structure Agent where
  id : String
  name : String
  role : String
  status : AgentStatus
  avatar_emoji : String
  is_master : Bool
  source : String
  updated_at : String
deriving DecidableEq, Repr

structure Task where
  id : String
  title : String
  status : TaskStatus
  assigned_agent_id : Option String
  updated_at : String
deriving DecidableEq, Repr

structure Event where
  id : String
  type : String
  message : String
  agent_id : Option String
  created_at : String
deriving DecidableEq, Repr

/-- The view-state store's collections: the latest agents, tasks and
events snapshots.  In the source these are either the three `useState`
cells of `AgentActivityDashboard` or the corresponding fields of the
shared `useMissionControl` store. -/
structure Store where
  agents : List Agent
  tasks : List Task
  events : List Event
deriving DecidableEq, Repr

/-- The outcome of a single resource fetch that resolved with an HTTP
response: the response's `ok` flag and the decoded collection payload. -/
structure FetchRes (α : Type) where
  ok : Bool
  payload : List α
deriving DecidableEq, Repr

/-! ## Refresh: per-collection store writes

`refresh` (AgentsSidebar.tsx lines 363–378) and the workspace page's
`loadData` both run
```
if (agentsRes.ok) setAgents(await agentsRes.json());
if (tasksRes.ok)  setTasks(await tasksRes.json());
if (eventsRes.ok) setEvents(await eventsRes.json());
```
so each collection is written exactly when its own response is `ok`. -/

/-- The store writes performed by a refresh once its three fetches have
resolved, translated from the conditional `setAgents`/`setTasks`/
`setEvents` calls. -/
def refreshWrites (st : Store) (aRes : FetchRes Agent) (tRes : FetchRes Task)
    (eRes : FetchRes Event) : Store :=
  let st1 := if aRes.ok then { st with agents := aRes.payload } else st
  let st2 := if tRes.ok then { st1 with tasks := tRes.payload } else st1
  if eRes.ok then { st2 with events := eRes.payload } else st2

/-! ## The dashboard sync effect: SSE connection and polling fallback

`AgentActivityDashboard`'s second effect (AgentsSidebar.tsx lines
363–421) owns a polling interval ref and an `EventSource` ref.  We model
the browser environment's live interval timers and open event-stream
connections explicitly, as lists of numeric ids handed out by the
environment, so that "no leaked timer / socket" is expressible. -/

/-- State of the dashboard sync effect: the environment's live interval
timers and open event-stream connections, plus the component's
`pollingIntervalRef`, `eventSourceRef` and `sseConnected` flag. -/
structure DashState where
  nextTimerId : Nat
  activeTimers : List Nat
  pollingIntervalRef : Option Nat
  nextConnId : Nat
  openConns : List Nat
  eventSourceRef : Option Nat
  sseConnected : Bool
deriving DecidableEq, Repr

/-- Model of `setInterval`: the environment registers a fresh live timer and
returns its id. -/
def setIntervalEnv (s : DashState) : Nat × DashState :=
  (s.nextTimerId,
    { s with
      activeTimers := s.nextTimerId :: s.activeTimers
      nextTimerId := s.nextTimerId + 1 })

/-- Model of `clearInterval id`: the environment removes the timer. -/
def clearIntervalEnv (i : Nat) (s : DashState) : DashState :=
  { s with activeTimers := s.activeTimers.erase i }

/-- Source `startPolling` (lines 380–383): if the ref already holds a timer,
return at once; otherwise create the interval and store its id. -/
def startPolling (s : DashState) : DashState :=
  if s.pollingIntervalRef.isSome then s
  else
    let p := setIntervalEnv s
    { p.2 with pollingIntervalRef := some p.1 }

/-- Source `stopPolling` (lines 385–390): if the ref holds a timer, clear it
and null the ref; otherwise do nothing. -/
def stopPolling (s : DashState) : DashState :=
  match s.pollingIntervalRef with
  | some i => { clearIntervalEnv i s with pollingIntervalRef := none }
  | none => s

/-- Model of `new EventSource(...)`: the environment opens a fresh connection and
returns its id. -/
def openEventSource (s : DashState) : Nat × DashState :=
  (s.nextConnId,
    { s with
      openConns := s.nextConnId :: s.openConns
      nextConnId := s.nextConnId + 1 })

/-- Model of `source.close()`: the environment closes the connection. -/
def closeEventSource (c : Nat) (s : DashState) : DashState :=
  { s with openConns := s.openConns.erase c }

/-- Source `connectSSE` (lines 392–394): open the event stream and store it in
`eventSourceRef`. -/
def connectSSE (s : DashState) : DashState :=
  let p := openEventSource s
  { p.2 with eventSourceRef := some p.1 }

/-- The `source.onopen` handler (lines 396–399): mark the stream
connected and stop polling. -/
def onOpen (s : DashState) : DashState :=
  stopPolling { s with sseConnected := true }

/-- The `source.onerror` handler (lines 406–411): mark the stream
disconnected, close the connection, null the ref, and start polling.
The handler does not reconnect the stream. -/
def onError (s : DashState) : DashState :=
  let s1 := { s with sseConnected := false }
  let s2 :=
    match s1.eventSourceRef with
    | some c => { closeEventSource c s1 with eventSourceRef := none }
    | none => s1
  startPolling s2

/-- The effect body (lines 414–415): `connectSSE(); startPolling();`. -/
def mountSync (s : DashState) : DashState :=
  startPolling (connectSSE s)

/-- The effect cleanup (lines 417–420):
`eventSourceRef.current?.close(); stopPolling();`.  Note the ref itself
is not nulled, only the connection is closed. -/
def teardownSync (s : DashState) : DashState :=
  let s1 :=
    match s.eventSourceRef with
    | some c => closeEventSource c s
    | none => s
  stopPolling s1

/-- Signals the sync effect can receive during its lifetime.  A stream
message or a poll tick triggers a refresh, which touches only the store,
never the timers or connections. -/
inductive SyncEv where
  | openSig
  | errorSig
  | message (data : String)
  | pollTick
deriving DecidableEq, Repr

/-- One signal step of the sync effect's timer/connection state. -/
def syncStep (s : DashState) (ev : SyncEv) : DashState :=
  match ev with
  | .openSig => onOpen s
  | .errorSig => onError s
  | .message _ => s
  | .pollTick => s

/-- Run a sequence of signals. -/
def syncRun (s : DashState) (evs : List SyncEv) : DashState :=
  evs.foldl syncStep s

/-- The polling ref exactly tracks the environment's live timers. -/
def timersWF (s : DashState) : Prop :=
  s.activeTimers =
    (match s.pollingIntervalRef with
     | some i => [i]
     | none => [])

/-- The event-source ref exactly tracks the open connections. -/
def connsWF (s : DashState) : Prop :=
  s.openConns =
    (match s.eventSourceRef with
     | some c => [c]
     | none => [])

/-- Well-formedness of the sync effect state. -/
def DashWF (s : DashState) : Prop :=
  timersWF s ∧ connsWF s

/-- A torn-down (or never-mounted) sync scope: no live timer, no open
connection, polling ref null. -/
def TornDown (s : DashState) : Prop :=
  s.activeTimers = [] ∧ s.openConns = [] ∧ s.pollingIntervalRef = none

end MissionControl

namespace MissionControl

lemma timersWF_startPolling {s : DashState} (h : timersWF s) :
    timersWF (startPolling s) := by
  cases hr : s.pollingIntervalRef with
  | none =>
      unfold timersWF at h
      rw [hr] at h
      unfold timersWF startPolling setIntervalEnv
      simp [hr, h]
  | some i =>
      unfold startPolling
      simp [hr]
      exact h

lemma timersWF_stopPolling {s : DashState} (h : timersWF s) :
    timersWF (stopPolling s) := by
  cases hr : s.pollingIntervalRef with
  | none =>
      unfold stopPolling
      simp [hr]
      exact h
  | some i =>
      unfold timersWF at h
      rw [hr] at h
      unfold timersWF stopPolling clearIntervalEnv
      simp [hr, h]

lemma connsWF_startPolling {s : DashState} (h : connsWF s) :
    connsWF (startPolling s) := by
  unfold connsWF startPolling setIntervalEnv at *
  cases hr : s.pollingIntervalRef <;> simp [hr] <;> exact h

lemma connsWF_stopPolling {s : DashState} (h : connsWF s) :
    connsWF (stopPolling s) := by
  unfold connsWF stopPolling clearIntervalEnv at *
  cases hr : s.pollingIntervalRef <;> simp [hr] <;> exact h

lemma dashWF_onOpen {s : DashState} (h : DashWF s) : DashWF (onOpen s) := by
  obtain ⟨ht, hc⟩ := h
  constructor
  · exact timersWF_stopPolling (by unfold timersWF at *; exact ht)
  · exact connsWF_stopPolling (by unfold connsWF at *; exact hc)

lemma dashWF_onError {s : DashState} (h : DashWF s) : DashWF (onError s) := by
  obtain ⟨ht, hc⟩ := h
  unfold onError
  cases hr : s.eventSourceRef with
  | none =>
      simp [hr]
      constructor
      · exact timersWF_startPolling ht
      · apply connsWF_startPolling
        unfold connsWF at *
        rw [hr] at hc
        simp [hc]
  | some c =>
      simp [hr]
      constructor
      · apply timersWF_startPolling
        unfold timersWF at *
        simpa [closeEventSource] using ht
      · apply connsWF_startPolling
        unfold connsWF at *
        rw [hr] at hc
        simp [closeEventSource, hc]

lemma dashWF_syncStep {s : DashState} (ev : SyncEv) (h : DashWF s) :
    DashWF (syncStep s ev) := by
  cases ev with
  | openSig => exact dashWF_onOpen h
  | errorSig => exact dashWF_onError h
  | message d => exact h
  | pollTick => exact h

lemma dashWF_syncRun {s : DashState} (evs : List SyncEv) (h : DashWF s) :
    DashWF (syncRun s evs) := by
  induction evs generalizing s with
  | nil => exact h
  | cons ev evs ih => exact ih (dashWF_syncStep ev h)

lemma dashWF_mountSync {s : DashState} (h : TornDown s) :
    DashWF (mountSync s) := by
  obtain ⟨ht, hc, hp⟩ := h
  unfold mountSync
  constructor
  · apply timersWF_startPolling
    unfold timersWF connectSSE openEventSource
    simp [hp, ht]
  · apply connsWF_startPolling
    unfold connsWF connectSSE openEventSource
    simp [hc]

lemma tornDown_teardownSync {s : DashState} (h : DashWF s) :
    TornDown (teardownSync s) := by
  obtain ⟨ht, hc⟩ := h
  unfold timersWF at ht
  unfold connsWF at hc
  unfold TornDown teardownSync
  cases hr : s.eventSourceRef with
  | none =>
      rw [hr] at hc
      cases hp : s.pollingIntervalRef with
      | none =>
          rw [hp] at ht
          unfold stopPolling
          simp [hp, ht, hc]
      | some i =>
          rw [hp] at ht
          unfold stopPolling clearIntervalEnv
          simp [hp, ht, hc]
  | some c =>
      rw [hr] at hc
      cases hp : s.pollingIntervalRef with
      | none =>
          rw [hp] at ht
          unfold stopPolling closeEventSource
          simp [hp, ht, hc]
      | some i =>
          rw [hp] at ht
          unfold stopPolling clearIntervalEnv closeEventSource
          simp [hp, ht, hc]

/-! ## The workspace page's intervals

`WorkspacePage`'s data effect creates three intervals — `eventPoll`
(30 s), `taskPoll` (60 s), `connectionCheck` (30 s) — and its cleanup
clears all three (part_002 lines 124–175). -/

/-- A bare timer environment: live interval timers by id. -/
structure TimerEnv where
  nextId : Nat
  activeTimers : List Nat
deriving DecidableEq, Repr

/-- Model of `setInterval` against the bare timer environment. -/
def setIntervalT (e : TimerEnv) : Nat × TimerEnv :=
  (e.nextId, ⟨e.nextId + 1, e.nextId :: e.activeTimers⟩)

/-- Model of `clearInterval` against the bare timer environment. -/
def clearIntervalT (i : Nat) (e : TimerEnv) : TimerEnv :=
  ⟨e.nextId, e.activeTimers.erase i⟩

/-- The ids of the three intervals the workspace page effect creates. -/
structure WSIntervals where
  eventPoll : Nat
  taskPoll : Nat
  connectionCheck : Nat
deriving DecidableEq, Repr

/-- The workspace page effect body: create `eventPoll`, then `taskPoll`,
then `connectionCheck` (part_002 lines 124, 135, 159). -/
def wsMountTimers (e : TimerEnv) : WSIntervals × TimerEnv :=
  let p1 := setIntervalT e
  let p2 := setIntervalT p1.2
  let p3 := setIntervalT p2.2
  (⟨p1.1, p2.1, p3.1⟩, p3.2)

/-- The workspace page effect cleanup (part_002 lines 171–175):
`clearInterval(eventPoll); clearInterval(connectionCheck);
clearInterval(taskPoll);`. -/
def wsCleanupTimers (ids : WSIntervals) (e : TimerEnv) : TimerEnv :=
  clearIntervalT ids.taskPoll
    (clearIntervalT ids.connectionCheck (clearIntervalT ids.eventPoll e))

end MissionControl

namespace MissionControl

/-- C2: on a stream `open` signal the polling timer is cleared and the
ref nulled; on a stream `error` signal the connection is closed, the ref
is nulled (no self-retry), and polling is running afterwards — freshly
started if it was not, untouched if it already was. -/
theorem sse_health_drives_polling (s : DashState) (h : DashWF s) :
    ((onOpen s).sseConnected = true
      ∧ (onOpen s).pollingIntervalRef = none
      ∧ (onOpen s).activeTimers = [])
    ∧ ((onError s).sseConnected = false
      ∧ (onError s).openConns = []
      ∧ (onError s).eventSourceRef = none
      ∧ (onError s).pollingIntervalRef.isSome = true
      ∧ (s.pollingIntervalRef.isSome = true →
          (onError s).pollingIntervalRef = s.pollingIntervalRef
          ∧ (onError s).activeTimers = s.activeTimers)) := by
  obtain ⟨ht, hc⟩ := h
  unfold timersWF at ht
  unfold connsWF at hc
  refine ⟨?_, ?_⟩
  · unfold onOpen stopPolling clearIntervalEnv
    cases hp : s.pollingIntervalRef with
    | none => rw [hp] at ht; simp [hp, ht]
    | some i => rw [hp] at ht; simp [hp, ht]
  · unfold onError
    cases hr : s.eventSourceRef with
    | none =>
        rw [hr] at hc
        cases hp : s.pollingIntervalRef with
        | none =>
            simp only [hr]
            unfold startPolling setIntervalEnv
            rw [hp] at ht
            simp [hp, ht, hc]
        | some i =>
            simp only [hr]
            unfold startPolling
            simp [hp, hc]
    | some c =>
        rw [hr] at hc
        cases hp : s.pollingIntervalRef with
        | none =>
            simp only [hr]
            unfold startPolling setIntervalEnv closeEventSource
            rw [hp] at ht
            simp [hp, ht, hc]
        | some i =>
            simp only [hr]
            unfold startPolling closeEventSource
            simp [hp, hc]

/-- Concrete instantiation of `sse_health_drives_polling`: a healthy
state with one live polling timer and one open connection. -/
theorem sse_health_drives_polling_witness :
    ((onOpen ⟨1, [0], some 0, 1, [0], some 0, false⟩).sseConnected = true
      ∧ (onOpen ⟨1, [0], some 0, 1, [0], some 0, false⟩).pollingIntervalRef = none
      ∧ (onOpen ⟨1, [0], some 0, 1, [0], some 0, false⟩).activeTimers = [])
    ∧ ((onError ⟨1, [0], some 0, 1, [0], some 0, false⟩).sseConnected = false
      ∧ (onError ⟨1, [0], some 0, 1, [0], some 0, false⟩).openConns = []
      ∧ (onError ⟨1, [0], some 0, 1, [0], some 0, false⟩).eventSourceRef = none
      ∧ (onError ⟨1, [0], some 0, 1, [0], some 0, false⟩).pollingIntervalRef.isSome = true
      ∧ ((⟨1, [0], some 0, 1, [0], some 0, false⟩ : DashState).pollingIntervalRef.isSome = true →
          (onError ⟨1, [0], some 0, 1, [0], some 0, false⟩).pollingIntervalRef
            = (⟨1, [0], some 0, 1, [0], some 0, false⟩ : DashState).pollingIntervalRef
          ∧ (onError ⟨1, [0], some 0, 1, [0], some 0, false⟩).activeTimers
            = (⟨1, [0], some 0, 1, [0], some 0, false⟩ : DashState).activeTimers)) :=
  sse_health_drives_polling ⟨1, [0], some 0, 1, [0], some 0, false⟩ ⟨rfl, rfl⟩

/-- A start-or-stop call on the poll scheduler. -/
inductive PollOp where
  | start
  | stop
deriving DecidableEq, Repr

/-- Apply a sequence of start/stop calls to the scheduler. -/
def applyPollOps (s : DashState) (ops : List PollOp) : DashState :=
  ops.foldl
    (fun s op =>
      match op with
      | .start => startPolling s
      | .stop => stopPolling s) s

lemma timersWF_applyPollOps {s : DashState} (ops : List PollOp)
    (h : timersWF s) : timersWF (applyPollOps s ops) := by
  induction ops generalizing s with
  | nil => exact h
  | cons op ops ih =>
      cases op with
      | start => exact ih (timersWF_startPolling h)
      | stop => exact ih (timersWF_stopPolling h)

lemma timersWF_length_le_one {s : DashState} (h : timersWF s) :
    s.activeTimers.length ≤ 1 := by
  unfold timersWF at h
  cases hp : s.pollingIntervalRef with
  | none => rw [hp] at h; simp [h]
  | some i => rw [hp] at h; simp [h]

/-- C3: starting the poll scheduler while its timer is live is a no-op
that leaves exactly one live timer; stopping a stopped scheduler is a
no-op; and any sequence of start/stop calls leaves at most one live
polling timer. -/
theorem polling_start_stop_idempotent (s : DashState) (ops : List PollOp)
    (h : timersWF s) :
    (s.pollingIntervalRef.isSome = true →
        startPolling s = s ∧ (startPolling s).activeTimers.length = 1)
    ∧ (s.pollingIntervalRef = none → stopPolling s = s)
    ∧ (applyPollOps s ops).activeTimers.length ≤ 1 := by
  refine ⟨?_, ?_, ?_⟩
  · intro hp
    have hs : startPolling s = s := by unfold startPolling; simp [hp]
    refine ⟨hs, ?_⟩
    rw [hs]
    unfold timersWF at h
    cases hq : s.pollingIntervalRef with
    | none => rw [hq] at hp; simp at hp
    | some i => rw [hq] at h; simp [h]
  · intro hp
    unfold stopPolling
    simp [hp]
  · exact timersWF_length_le_one (timersWF_applyPollOps ops h)

/-- Concrete instantiation of `polling_start_stop_idempotent`: a running
scheduler hit with a double start, a double stop and a restart. -/
theorem polling_start_stop_idempotent_witness :
    startPolling ⟨1, [0], some 0, 0, [], none, false⟩
        = ⟨1, [0], some 0, 0, [], none, false⟩
    ∧ (applyPollOps ⟨1, [0], some 0, 0, [], none, false⟩
        [.start, .start, .stop, .stop, .start]).activeTimers.length ≤ 1 :=
  ⟨((polling_start_stop_idempotent ⟨1, [0], some 0, 0, [], none, false⟩
      [.start, .start, .stop, .stop, .start] rfl).1 rfl).1,
    (polling_start_stop_idempotent ⟨1, [0], some 0, 0, [], none, false⟩
      [.start, .start, .stop, .stop, .start] rfl).2.2⟩

/-- C6: after teardown nothing is leaked.  For the dashboard sync
effect: from any torn-down scope, a mount followed by any sequence of
stream/poll signals and then the cleanup leaves zero live timers, zero
open connections and a null polling ref.  For the workspace page effect:
its cleanup removes exactly the three intervals its body created. -/
theorem teardown_leaves_no_timers_or_conns (s : DashState)
    (evs : List SyncEv) (e : TimerEnv) (hs : TornDown s) :
    TornDown (teardownSync (syncRun (mountSync s) evs))
    ∧ (wsCleanupTimers (wsMountTimers e).1 (wsMountTimers e).2).activeTimers
        = e.activeTimers := by
  constructor
  · exact tornDown_teardownSync (dashWF_syncRun evs (dashWF_mountSync hs))
  · unfold wsMountTimers wsCleanupTimers setIntervalT clearIntervalT
    have h1 : ∀ n : Nat, ¬(n + 1 + 1 = n) := by intro n; omega
    have h2 : ∀ n : Nat, ¬(n + 1 = n) := by intro n; omega
    have h3 : ∀ n : Nat, ¬(n + 1 + 1 = n + 1) := by intro n; omega
    simp [List.erase_cons, h1, h2, h3]

/-- Concrete instantiation of `teardown_leaves_no_timers_or_conns`: a
fresh scope, a lifetime seeing an open, a message, an error and a poll
tick, then teardown; and a workspace page mounted over an environment
with one unrelated live timer. -/
theorem teardown_leaves_no_timers_or_conns_witness :
    TornDown (teardownSync (syncRun
        (mountSync ⟨0, [], none, 0, [], none, false⟩)
        [.openSig, .message "x", .errorSig, .pollTick]))
    ∧ (wsCleanupTimers (wsMountTimers ⟨7, [3]⟩).1
        (wsMountTimers ⟨7, [3]⟩).2).activeTimers = [3] :=
  teardown_leaves_no_timers_or_conns ⟨0, [], none, 0, [], none, false⟩
    [.openSig, .message "x", .errorSig, .pollTick] ⟨7, [3]⟩
    ⟨rfl, rfl, rfl⟩

/-- C4: each collection is updated independently by a refresh: it is
replaced exactly when its own fetch response is ok, and otherwise keeps
its previous value; one failing fetch does not disturb the others. -/
theorem refreshWrites_independent (st : Store) (aRes : FetchRes Agent)
    (tRes : FetchRes Task) (eRes : FetchRes Event) :
    (refreshWrites st aRes tRes eRes).agents
        = (if aRes.ok then aRes.payload else st.agents)
      ∧ (refreshWrites st aRes tRes eRes).tasks
        = (if tRes.ok then tRes.payload else st.tasks)
      ∧ (refreshWrites st aRes tRes eRes).events
        = (if eRes.ok then eRes.payload else st.events) := by
  unfold refreshWrites
  rcases aRes with ⟨aok, ap⟩
  rcases tRes with ⟨tok, tp⟩
  rcases eRes with ⟨eok, ep⟩
  cases aok <;> cases tok <;> cases eok <;> simp

end MissionControl

namespace MissionControl

/-! ## Fetch requests issued by the sync core

The source builds URL strings; we model a request as its path plus the
query pairs the template string carries. -/

/-- An HTTP request: path and query pairs. -/
structure Req where
  path : String
  query : List (String × String)
deriving DecidableEq, Repr

/-- The agents fetch:
`workspaceId ? /api/agents?workspace_id=ID : /api/agents`. -/
def agentsReq (workspaceId : Option String) : Req :=
  match workspaceId with
  | some w => ⟨"/api/agents", [("workspace_id", w)]⟩
  | none => ⟨"/api/agents", []⟩

/-- The tasks fetch:
`workspaceId ? /api/tasks?workspace_id=ID : /api/tasks`. -/
def tasksReq (workspaceId : Option String) : Req :=
  match workspaceId with
  | some w => ⟨"/api/tasks", [("workspace_id", w)]⟩
  | none => ⟨"/api/tasks", []⟩

/-- The dashboard's initial-load events fetch, `/api/events?limit=150`
(AgentsSidebar.tsx line 341). -/
def dashboardLoadEventsReq : Req :=
  ⟨"/api/events", [("limit", "150")]⟩

/-- The dashboard's refresh events fetch, `/api/events?limit=150`
(AgentsSidebar.tsx line 369). -/
def dashboardRefreshEventsReq : Req :=
  ⟨"/api/events", [("limit", "150")]⟩

/-- The workspace page's initial-load events fetch, `/api/events` with
no query at all (part_002 line 87). -/
def workspaceLoadEventsReq : Req :=
  ⟨"/api/events", []⟩

/-- The workspace page's event-poll fetch, `/api/events?limit=20`
(part_002 line 126). -/
def workspaceEventPollReq : Req :=
  ⟨"/api/events", [("limit", "20")]⟩

/-- Every events-collection fetch the sync core issues: dashboard
initial load, dashboard refresh, workspace page initial load, workspace
page event poll. -/
def eventsFetchSites : List Req :=
  [dashboardLoadEventsReq, dashboardRefreshEventsReq,
    workspaceLoadEventsReq, workspaceEventPollReq]

/-- The `limit` query parameter a request carries, if any. -/
def reqLimit (r : Req) : Option String :=
  (r.query.find? (fun kv => kv.fst == "limit")).map Prod.snd

/-- The three fetches a dashboard refresh issues (AgentsSidebar.tsx
lines 366–370): agents, tasks, events. -/
def refreshRequests (workspaceId : Option String) : List Req :=
  [agentsReq workspaceId, tasksReq workspaceId, dashboardRefreshEventsReq]

/-- Source check `event.data.startsWith(':')`: with a one-character pattern this
holds exactly when the message's first character is the sentinel. -/
def isKeepAlive (data : String) : Bool :=
  match data.data with
  | [] => false
  | c :: _ => c == ':'

/-- The `source.onmessage` handler (AgentsSidebar.tsx lines 401–404):
`if (event.data.startsWith(':')) return; refresh();`.  Returns the list
of refresh invocations the message triggers, each with its fetches. -/
def onMessageRefreshes (workspaceId : Option String) (data : String) :
    List (List Req) :=
  if isKeepAlive data then [] else [refreshRequests workspaceId]

/-! ## Connectivity-status checks

`checkOpenClaw` (part_002 lines 104–119) fetches `/api/openclaw/status`
under a 5000 ms `AbortController` timeout; the `connectionCheck`
interval callback (lines 159–169) fetches the same endpoint with no
timeout.  Both set the online flag from an ok response's `connected`
field and set it to `false` on an exception; a non-ok response leaves
the flag untouched. -/

/-- A status fetch site: endpoint and abort timeout, if any. -/
structure StatusCheck where
  url : String
  timeoutMs : Option Nat
deriving DecidableEq, Repr

/-- The one-shot `checkOpenClaw` fetch: aborted after 5000 ms. -/
def checkOpenClawReq : StatusCheck :=
  ⟨"/api/openclaw/status", some 5000⟩

/-- The periodic `connectionCheck` fetch: no timeout. -/
def connectionCheckReq : StatusCheck :=
  ⟨"/api/openclaw/status", none⟩

/-- Both connectivity-status fetch sites. -/
def statusCheckSites : List StatusCheck :=
  [checkOpenClawReq, connectionCheckReq]

/-- How a status fetch can end: a thrown exception (network failure or
abort), or an HTTP response with its `ok` flag and decoded `connected`
field. -/
inductive StatusOutcome where
  | exn
  | resp (ok : Bool) (connected : Bool)
deriving DecidableEq, Repr

/-- The online flag after `checkOpenClaw` runs, from its previous
value and the fetch outcome. -/
def checkOpenClawOnline (prev : Bool) : StatusOutcome → Bool
  | .exn => false
  | .resp true c => c
  | .resp false _ => prev

/-- The online flag after one `connectionCheck` tick, from its previous
value and the fetch outcome. -/
def connectionCheckOnline (prev : Bool) : StatusOutcome → Bool
  | .exn => false
  | .resp true c => c
  | .resp false _ => prev

/-! ## Liveness guards on late fetch results

The dashboard's `loadData` (AgentsSidebar.tsx lines 333–361) closes over
a `mounted` flag that the effect cleanup sets to `false`, and checks it
once after its `Promise.all` resolves, before any store write.  The
dashboard's `refresh` (lines 363–378) performs no such check. -/

/-- The store writes performed when `loadData`'s fetches resolve.
`mounted` is the owning scope's liveness at resumption, consulted by the
source's `if (!mounted) return;`. -/
def loadDataResume (mounted : Bool) (st : Store) (aRes : FetchRes Agent)
    (tRes : FetchRes Task) (eRes : FetchRes Event) : Store :=
  if !mounted then st
  else
    let st1 := if aRes.ok then { st with agents := aRes.payload } else st
    let st2 := if tRes.ok then { st1 with tasks := tRes.payload } else st1
    if eRes.ok then { st2 with events := eRes.payload } else st2

/-- The store writes performed when `refresh`'s fetches resolve.
`mounted` is the owning scope's liveness at resumption; the source body
never consults it. -/
def refreshResume (_mounted : Bool) (st : Store) (aRes : FetchRes Agent)
    (tRes : FetchRes Task) (eRes : FetchRes Event) : Store :=
  let st1 := if aRes.ok then { st with agents := aRes.payload } else st
  let st2 := if tRes.ok then { st1 with tasks := tRes.payload } else st1
  if eRes.ok then { st2 with events := eRes.payload } else st2

/-- A sample agent payload for concrete executions. -/
def lateAgent : Agent :=
  ⟨"a1", "Astra", "dev", .working, "A", false, "local", "2026-01-01"⟩

/-! ## Derived view: blocked agents

`blockedAgentIds` (AgentsSidebar.tsx lines 428–448) builds a `Set` of
agent ids from two loops: tasks whose status is `testing` or `review`
contribute their assignee, and offline agents with a not-`done` assigned
task contribute themselves. -/

/-- Model of `Set.add`: insertion-ordered set on a list. -/
def addSet (s : List String) (x : String) : List String :=
  if x ∈ s then s else s ++ [x]

/-- Source check `tasks.some((task) => task.assigned_agent_id === agent.id &&
task.status !== 'done')` (lines 440–442). -/
def hasAssignedActiveTask (tasks : List Task) (agentId : String) : Bool :=
  tasks.any fun t =>
    t.assigned_agent_id == some agentId && !(t.status == TaskStatus.done)

/-- The body of the first loop (lines 431–436): skip unassigned tasks;
add the assignee of a task in `testing` or `review`. -/
def blockedTaskStep (ids : List String) (task : Task) : List String :=
  match task.assigned_agent_id with
  | none => ids
  | some aid =>
      if task.status = TaskStatus.testing ∨ task.status = TaskStatus.review
      then addSet ids aid
      else ids

/-- The body of the second loop (lines 438–444): add an offline agent
that has an assigned not-done task. -/
def blockedAgentStep (tasks : List Task) (ids : List String)
    (agent : Agent) : List String :=
  if agent.status = AgentStatus.offline
      ∧ hasAssignedActiveTask tasks agent.id = true
  then addSet ids agent.id
  else ids

/-- Source `blockedAgentIds`: both loops over an initially empty set. -/
def blockedAgentIds (agents : List Agent) (tasks : List Task) :
    List String :=
  agents.foldl (blockedAgentStep tasks) (tasks.foldl blockedTaskStep [])

/-! ## The workspace page's task poll

The `taskPoll` interval callback (part_002 lines 135–157) compares the
fetched task list with the store's and writes only on a detected
change. -/

/-- The change detector: length differs, or some fetched task has no
stored task with its id, or the first stored task with its id has a
different `updated_at`. -/
def hasChanges (newTasks currentTasks : List Task) : Bool :=
  newTasks.length != currentTasks.length
    || newTasks.any fun t =>
        match currentTasks.find? (fun ct => ct.id == t.id) with
        | none => true
        | some current => current.updated_at != t.updated_at

/-- One task-poll tick: on an ok response, replace the store's tasks
exactly when `hasChanges` detects a difference; otherwise leave the
store alone. -/
def taskPollStep (st : Store) (res : FetchRes Task) : Store :=
  if res.ok then
    if hasChanges res.payload st.tasks
    then { st with tasks := res.payload }
    else st
  else st

/-- The claim's change condition, spelled propositionally: the lists
differ in length, or some fetched task is absent from the current list
or differs in `updated_at` from its first stored counterpart. -/
def TasksDiffer (newTasks currentTasks : List Task) : Prop :=
  newTasks.length ≠ currentTasks.length
    ∨ ∃ t ∈ newTasks,
        (∀ ct ∈ currentTasks, ct.id ≠ t.id)
        ∨ ∃ c, currentTasks.find? (fun ct => ct.id == t.id) = some c
            ∧ c.updated_at ≠ t.updated_at

/-- A sample task for concrete executions. -/
def wTask : Task := ⟨"t1", "Ship it", .in_progress, some "a1", "u1"⟩

/-- The sample task after a server-side update (newer `updated_at`). -/
def wTask2 : Task := ⟨"t1", "Ship it", .in_progress, some "a1", "u2"⟩

/-- A sample offline agent assigned to `wTask`. -/
def wAgent : Agent :=
  ⟨"a1", "Astra", "dev", .offline, "A", false, "local", "2026-01-01"⟩

end MissionControl

namespace MissionControl

lemma mem_addSet {s : List String} {x y : String} :
    y ∈ addSet s x ↔ y ∈ s ∨ y = x := by
  unfold addSet
  split
  · rename_i hx
    constructor
    · exact Or.inl
    · rintro (h | rfl)
      · exact h
      · exact hx
  · simp

lemma mem_blockedTaskStep {ids : List String} {t : Task} {y : String} :
    y ∈ blockedTaskStep ids t
      ↔ y ∈ ids
        ∨ (t.assigned_agent_id = some y
            ∧ (t.status = TaskStatus.testing ∨ t.status = TaskStatus.review)) := by
  unfold blockedTaskStep
  cases h : t.assigned_agent_id with
  | none => simp [h]
  | some a =>
      simp only [h]
      by_cases hc : t.status = TaskStatus.testing ∨ t.status = TaskStatus.review
      · rw [if_pos hc, mem_addSet]
        constructor
        · rintro (hy | rfl)
          · exact Or.inl hy
          · exact Or.inr ⟨rfl, hc⟩
        · rintro (hy | ⟨he, _⟩)
          · exact Or.inl hy
          · exact Or.inr (Option.some.inj he).symm
      · rw [if_neg hc]
        constructor
        · exact Or.inl
        · rintro (hy | ⟨_, hc2⟩)
          · exact hy
          · exact absurd hc2 hc

lemma mem_foldl_blockedTaskStep (tasks : List Task) (init : List String)
    (y : String) :
    y ∈ tasks.foldl blockedTaskStep init
      ↔ y ∈ init
        ∨ ∃ t ∈ tasks, t.assigned_agent_id = some y
            ∧ (t.status = TaskStatus.testing ∨ t.status = TaskStatus.review) := by
  induction tasks generalizing init with
  | nil => simp
  | cons t ts ih =>
      rw [List.foldl_cons, ih, mem_blockedTaskStep]
      constructor
      · rintro ((hy | hc) | ⟨u, hu, hc⟩)
        · exact Or.inl hy
        · exact Or.inr ⟨t, List.mem_cons_self t ts, hc⟩
        · exact Or.inr ⟨u, List.mem_cons_of_mem t hu, hc⟩
      · rintro (hy | ⟨u, hu, hc⟩)
        · exact Or.inl (Or.inl hy)
        · rcases List.mem_cons.mp hu with rfl | hu
          · exact Or.inl (Or.inr hc)
          · exact Or.inr ⟨u, hu, hc⟩

lemma mem_blockedAgentStep {tasks : List Task} {ids : List String}
    {ag : Agent} {y : String} :
    y ∈ blockedAgentStep tasks ids ag
      ↔ y ∈ ids
        ∨ (ag.id = y ∧ ag.status = AgentStatus.offline
            ∧ hasAssignedActiveTask tasks ag.id = true) := by
  unfold blockedAgentStep
  by_cases hc : ag.status = AgentStatus.offline
      ∧ hasAssignedActiveTask tasks ag.id = true
  · rw [if_pos hc, mem_addSet]
    constructor
    · rintro (hy | rfl)
      · exact Or.inl hy
      · exact Or.inr ⟨rfl, hc⟩
    · rintro (hy | ⟨rfl, _⟩)
      · exact Or.inl hy
      · exact Or.inr rfl
  · rw [if_neg hc]
    constructor
    · exact Or.inl
    · rintro (hy | ⟨_, hoff, hact⟩)
      · exact hy
      · exact absurd ⟨hoff, hact⟩ hc

lemma mem_foldl_blockedAgentStep (agents : List Agent) (tasks : List Task)
    (init : List String) (y : String) :
    y ∈ agents.foldl (blockedAgentStep tasks) init
      ↔ y ∈ init
        ∨ ∃ ag ∈ agents, ag.id = y ∧ ag.status = AgentStatus.offline
            ∧ hasAssignedActiveTask tasks ag.id = true := by
  induction agents generalizing init with
  | nil => simp
  | cons a as ih =>
      rw [List.foldl_cons, ih, mem_blockedAgentStep]
      constructor
      · rintro ((hy | hc) | ⟨u, hu, hc⟩)
        · exact Or.inl hy
        · exact Or.inr ⟨a, List.mem_cons_self a as, hc⟩
        · exact Or.inr ⟨u, List.mem_cons_of_mem a hu, hc⟩
      · rintro (hy | ⟨u, hu, hc⟩)
        · exact Or.inl (Or.inl hy)
        · rcases List.mem_cons.mp hu with rfl | hu
          · exact Or.inl (Or.inr hc)
          · exact Or.inr ⟨u, hu, hc⟩

lemma hasAssignedActiveTask_iff (tasks : List Task) (aid : String) :
    hasAssignedActiveTask tasks aid = true
      ↔ ∃ t ∈ tasks, t.assigned_agent_id = some aid
          ∧ t.status ≠ TaskStatus.done := by
  unfold hasAssignedActiveTask
  simp [List.any_eq_true]

end MissionControl

namespace MissionControl

/-- C9: an agent in the agents collection is classified as blocked iff
some task assigned to it is in `testing` or `review`, or the agent is
offline and some task assigned to it is not `done` (ids assumed
distinct across the agents collection). -/
theorem blocked_agent_classification (agents : List Agent)
    (tasks : List Task) (a : Agent) (ha : a ∈ agents)
    (hnd : (agents.map Agent.id).Nodup) :
    a.id ∈ blockedAgentIds agents tasks
      ↔ (∃ t ∈ tasks, t.assigned_agent_id = some a.id
            ∧ (t.status = TaskStatus.testing ∨ t.status = TaskStatus.review))
        ∨ (a.status = AgentStatus.offline
            ∧ ∃ t ∈ tasks, t.assigned_agent_id = some a.id
                ∧ t.status ≠ TaskStatus.done) := by
  unfold blockedAgentIds
  rw [mem_foldl_blockedAgentStep, mem_foldl_blockedTaskStep]
  simp only [List.not_mem_nil, false_or]
  constructor
  · rintro (h | ⟨ag, hag, hid, hoff, hact⟩)
    · exact Or.inl h
    · have heq : ag = a :=
        List.inj_on_of_nodup_map hnd hag ha hid
      subst heq
      exact Or.inr ⟨hoff, (hasAssignedActiveTask_iff tasks ag.id).mp hact⟩
  · rintro (h | ⟨hoff, hact⟩)
    · exact Or.inl h
    · exact Or.inr ⟨a, ha, rfl, hoff,
        (hasAssignedActiveTask_iff tasks a.id).mpr hact⟩

/-- Concrete instantiation of `blocked_agent_classification`: the
offline agent `a1` with an assigned in-progress task is blocked. -/
theorem blocked_agent_classification_witness :
    wAgent.id ∈ blockedAgentIds [wAgent] [wTask] :=
  (blocked_agent_classification [wAgent] [wTask] wAgent (by decide)
      (by decide)).mpr
    (Or.inr ⟨rfl, wTask, by decide, by decide, by decide⟩)

/-- C10: the task poller writes to the store only on detected change:
on an ok response the tasks collection is replaced exactly when the
fetched list differs (in length, or some fetched task is absent from the
current list or differs in `updated_at` from its stored counterpart);
a matching list and a non-ok response both leave the store untouched. -/
theorem task_poll_writes_only_on_change (st : Store)
    (res : FetchRes Task) :
    (res.ok = true →
        (taskPollStep st res).tasks
            = (if hasChanges res.payload st.tasks then res.payload
               else st.tasks)
          ∧ (hasChanges res.payload st.tasks = false →
              taskPollStep st res = st))
    ∧ (res.ok = false → taskPollStep st res = st)
    ∧ (hasChanges res.payload st.tasks = true
        ↔ TasksDiffer res.payload st.tasks) := by
  refine ⟨?_, ?_, ?_⟩
  · intro hok
    constructor
    · unfold taskPollStep
      rw [hok]
      by_cases hch : hasChanges res.payload st.tasks
      · simp [hch]
      · simp [hch]
    · intro hch
      unfold taskPollStep
      rw [hok]
      simp [hch]
  · intro hok
    unfold taskPollStep
    rw [hok]
    simp
  · unfold hasChanges TasksDiffer
    simp only [Bool.or_eq_true, bne_iff_ne, ne_eq, List.any_eq_true]
    constructor
    · rintro (hl | ⟨t, ht, hm⟩)
      · exact Or.inl hl
      · refine Or.inr ⟨t, ht, ?_⟩
        cases hf : st.tasks.find? (fun ct => ct.id == t.id) with
        | none =>
            left
            intro ct hct
            have := List.find?_eq_none.mp hf ct hct
            simpa using this
        | some c =>
            right
            rw [hf] at hm
            exact ⟨c, rfl, by simpa using hm⟩
    · rintro (hl | ⟨t, ht, hm⟩)
      · exact Or.inl hl
      · refine Or.inr ⟨t, ht, ?_⟩
        rcases hm with habs | ⟨c, hfind, hne⟩
        · cases hf : st.tasks.find? (fun ct => ct.id == t.id) with
          | none => simp
          | some c =>
              have hmem := List.mem_of_find?_eq_some hf
              have hp := List.find?_some hf
              exact absurd (by simpa using hp) (habs c hmem)
        · rw [hfind]
          simpa using hne

/-- Concrete instantiation of `task_poll_writes_only_on_change`: a poll
fetching an updated task replaces the collection; a failed poll leaves
the store untouched. -/
theorem task_poll_writes_only_on_change_witness :
    (taskPollStep ⟨[], [wTask], []⟩ ⟨true, [wTask2]⟩).tasks = [wTask2]
    ∧ taskPollStep ⟨[], [wTask], []⟩ ⟨false, [wTask2]⟩
        = ⟨[], [wTask], []⟩ := by
  constructor
  · have h :=
      ((task_poll_writes_only_on_change ⟨[], [wTask], []⟩
          ⟨true, [wTask2]⟩).1 rfl).1
    rw [h]
    decide
  · exact (task_poll_writes_only_on_change ⟨[], [wTask], []⟩
      ⟨false, [wTask2]⟩).2.1 rfl

end MissionControl

namespace MissionControl

/-- C1: a keep-alive message (data starting with the sentinel `:`)
triggers no refresh; any other message triggers exactly one refresh,
whose fetches target the agents, tasks and events collections. -/
theorem message_triggers_one_refresh (wid : Option String) (data : String) :
    (isKeepAlive data = true → onMessageRefreshes wid data = [])
    ∧ (isKeepAlive data = false →
        onMessageRefreshes wid data = [refreshRequests wid]
        ∧ (refreshRequests wid).map Req.path
            = ["/api/agents", "/api/tasks", "/api/events"]) := by
  constructor
  · intro h
    unfold onMessageRefreshes
    simp [h]
  · intro h
    refine ⟨?_, ?_⟩
    · unfold onMessageRefreshes
      simp [h]
    · cases wid <;> rfl

/-- Concrete instantiation of `message_triggers_one_refresh`: a
keep-alive line and a data line under workspace `w1`. -/
theorem message_triggers_one_refresh_witness :
    onMessageRefreshes (some "w1") ": keep-alive" = []
    ∧ onMessageRefreshes (some "w1") "data-changed"
        = [refreshRequests (some "w1")] :=
  ⟨(message_triggers_one_refresh (some "w1") ": keep-alive").1 (by decide),
    ((message_triggers_one_refresh (some "w1") "data-changed").2 (by decide)).1⟩

/-- C7 counterexample: the workspace page's initial load fetches the
events collection with no `limit` parameter at all, so not every events
fetch requests a bounded window. -/
theorem events_limit_counterexample :
    workspaceLoadEventsReq ∈ eventsFetchSites
    ∧ reqLimit workspaceLoadEventsReq = none := by
  exact ⟨by simp [eventsFetchSites], rfl⟩

/-- C7 amended: the dashboard's initial load and refresh fetch events
with `limit=150` and the workspace page's event poll with `limit=20`,
while the workspace page's initial load fetches events with no limit. -/
theorem events_fetch_limits :
    reqLimit dashboardLoadEventsReq = some "150"
    ∧ reqLimit dashboardRefreshEventsReq = some "150"
    ∧ reqLimit workspaceEventPollReq = some "20"
    ∧ reqLimit workspaceLoadEventsReq = none :=
  ⟨rfl, rfl, rfl, rfl⟩

/-- C8 counterexample: the periodic connectivity poll carries no abort
timeout, and a non-ok response leaves the online flag raised instead of
setting it to false. -/
theorem status_poll_counterexample :
    connectionCheckReq ∈ statusCheckSites
    ∧ connectionCheckReq.timeoutMs = none
    ∧ connectionCheckOnline true (.resp false false) = true := by
  exact ⟨by simp [statusCheckSites], rfl, rfl⟩

/-- C8 amended: the one-shot initial status check aborts after 5000 ms
while the periodic poll has no timeout; in both, an exception (which
includes an abort) sets the online flag to false, an ok response copies
the reported `connected` value, and a non-ok response leaves the flag
unchanged — no failure escalates beyond the flag. -/
theorem status_check_online_flag (prev c : Bool) :
    checkOpenClawReq.timeoutMs = some 5000
    ∧ connectionCheckReq.timeoutMs = none
    ∧ checkOpenClawOnline prev .exn = false
    ∧ connectionCheckOnline prev .exn = false
    ∧ checkOpenClawOnline prev (.resp true c) = c
    ∧ connectionCheckOnline prev (.resp true c) = c
    ∧ checkOpenClawOnline prev (.resp false c) = prev
    ∧ connectionCheckOnline prev (.resp false c) = prev :=
  ⟨rfl, rfl, rfl, rfl, rfl, rfl, rfl, rfl⟩

/-- C5 counterexample: a refresh whose fetches resolve after its scope
is torn down (liveness `false`) still writes the fetched agents into the
store — the refresh path has no mounted guard. -/
theorem late_refresh_still_writes :
    refreshResume false ⟨[], [], []⟩ ⟨true, [lateAgent]⟩ ⟨true, []⟩
        ⟨true, []⟩ ≠ (⟨[], [], []⟩ : Store) := by
  intro h
  have hA := congrArg Store.agents h
  simp [refreshResume] at hA

/-- C5 amended: the initial-load path consults its mounted flag when its
fetches resolve and writes nothing once the scope is torn down, but the
refresh path performs no liveness check: whatever the scope's liveness,
it writes exactly as an always-live refresh would. -/
theorem mounted_flag_guards_load_not_refresh (m : Bool) (st : Store)
    (aRes : FetchRes Agent) (tRes : FetchRes Task) (eRes : FetchRes Event) :
    loadDataResume false st aRes tRes eRes = st
    ∧ loadDataResume true st aRes tRes eRes = refreshWrites st aRes tRes eRes
    ∧ refreshResume m st aRes tRes eRes = refreshWrites st aRes tRes eRes :=
  ⟨rfl, rfl, rfl⟩

end MissionControl
